import Mathlib

/-!
Verification of the per-vehicle kinematics and car-following model of the
traffic simulator (`simulateur_trafic/models/vehicule.pyx`), shallowly
embedded over the rationals.  Python floats are modelled as exact rationals;
the `Route` collaborator is modelled by the two read-only fields the vehicle
consumes plus an identifier used to record the membership hook calls that
`changer_de_route` makes.
-/

/-- The external `Route` collaborator, as seen by a `Vehicule`: a length
(`longueur`, km), a posted speed limit (`limite_vitesse`, km/h), and an
identifier `rid` used only to record which route's membership hooks are
invoked. -/
structure Route where
  rid : Nat
  longueur : ℚ
  limite_vitesse : ℚ
deriving DecidableEq, Repr

/-- State of a `Vehicule` (`vehicule.pyx`): identifier string, position (km),
current speed (km/h), hard speed cap (km/h), cumulative odometer (km),
cumulative travel time (minutes), and the nullable current route. -/
structure Vehicule where
  identifiant : String
  position : ℚ
  vitesse : ℚ
  vitesse_max : ℚ
  distance_parcourue : ℚ
  temps_trajet : ℚ
  route_actuelle : Option Route
deriving DecidableEq, Repr

/-- One call into the `Route` collaborator's membership API, recorded by
`changer_de_route`: `retirer r` is `route.retirer_vehicule(self)` on the route
with identifier `r`, `ajouter r` is `route.ajouter_vehicule(self)`. -/
inductive HookCall where
  | retirer (rid : Nat)
  | ajouter (rid : Nat)
deriving DecidableEq, Repr

/-- Embedding of `Vehicule.avancer(delta_t)`: no-op when `route_actuelle is None`;
otherwise converts `delta_t` to hours, computes the effective speed
`min(self.vitesse, route.limite_vitesse, self.vitesse_max)`, adds the
displacement to `position` and `distance_parcourue`, adds `delta_t` to
`temps_trajet`, then clamps `position` to `route.longueur` when it reached
or passed it. -/
def avancer (v : Vehicule) (delta_t : ℚ) : Vehicule :=
  match v.route_actuelle with
  | none => v
  | some r =>
    let delta_h := delta_t / 60
    let vitesse_effective := min (min v.vitesse r.limite_vitesse) v.vitesse_max
    let deplacement := vitesse_effective * delta_h
    let pos1 := v.position + deplacement
    { v with
      position := if pos1 ≥ r.longueur then r.longueur else pos1
      distance_parcourue := v.distance_parcourue + deplacement
      temps_trajet := v.temps_trajet + delta_t }

/-- Embedding of `Vehicule.ajuster_vitesse(vehicule_devant, distance_securite)`: no-op when
`route_actuelle is None`.  The code encodes an absent leader as the sentinel
position `-1.0` and tests `p_devant < 0`; in that case (absent leader, or a
leader at a strictly negative position) it accelerates by 10 under the two
caps.  Otherwise it applies the three-zone rule on
`distance = p_devant - self.position`: hard brake below `distance_securite`,
match the leader below `distance_securite * 2`, else accelerate by 5 under
the two caps. -/
def ajuster_vitesse (v : Vehicule) (vehicule_devant : Option Vehicule)
    (distance_securite : ℚ) : Vehicule :=
  match v.route_actuelle with
  | none => v
  | some r =>
    match vehicule_devant with
    | none =>
      { v with vitesse := min (min (v.vitesse + 10) r.limite_vitesse) v.vitesse_max }
    | some w =>
      if w.position < 0 then
        { v with vitesse := min (min (v.vitesse + 10) r.limite_vitesse) v.vitesse_max }
      else
        let distance := w.position - v.position
        if distance < distance_securite then
          { v with vitesse := max 0 (w.vitesse - 10) }
        else if distance < distance_securite * 2 then
          { v with vitesse := w.vitesse }
        else
          { v with vitesse := min (min (v.vitesse + 5) r.limite_vitesse) v.vitesse_max }

/-- Embedding of `Vehicule.changer_de_route(nouvelle_route)`: returns the boolean result,
the updated vehicle state, and the ordered list of membership hook calls made
into the `Route` collaborator.  `None` yields `False` with no change and no
hook call; otherwise the prior route's removal hook (when a prior route
exists) precedes the new route's addition hook, `route_actuelle` is replaced
and `position` reset to `0.0`. -/
def changer_de_route (v : Vehicule) (nouvelle_route : Option Route) :
    Bool × Vehicule × List HookCall :=
  match nouvelle_route with
  | none => (false, v, [])
  | some r =>
    let pre : List HookCall :=
      match v.route_actuelle with
      | none => []
      | some r0 => [HookCall.retirer r0.rid]
    (true, { v with route_actuelle := some r, position := 0 },
      pre ++ [HookCall.ajouter r.rid])

/-- Embedding of `Vehicule.est_arrive()`: `False` when `route_actuelle is None`, else
whether `position >= route.longueur`. -/
def est_arrive (v : Vehicule) : Bool :=
  match v.route_actuelle with
  | none => false
  | some r => decide (v.position ≥ r.longueur)

/-- A concrete route used by witnesses: length 100 km, limit 90 km/h. -/
def rW1 : Route := ⟨1, 100, 90⟩

/-- A concrete vehicle on `rW1` at km 0 with speed 50. -/
def vW1 : Vehicule := ⟨"VEH_0001", 0, 50, 130, 0, 0, some rW1⟩

/-- C1: with a non-null route, `avancer delta_t` uses the effective speed
`min(vitesse, limite_vitesse, vitesse_max)`, adds
`effectiveSpeed * (delta_t / 60)` to `distance_parcourue`, adds `delta_t`
(minutes, unconverted) to `temps_trajet`, and adds the same displacement to
`position` (the sum then being clamped to the route length when it reaches
it). -/
theorem avancer_updates (v : Vehicule) (r : Route) (dt : ℚ)
    (h : v.route_actuelle = some r) :
    (avancer v dt).distance_parcourue =
      v.distance_parcourue + min (min v.vitesse r.limite_vitesse) v.vitesse_max * (dt / 60) ∧
    (avancer v dt).temps_trajet = v.temps_trajet + dt ∧
    (avancer v dt).position =
      if v.position + min (min v.vitesse r.limite_vitesse) v.vitesse_max * (dt / 60) ≥
          r.longueur then r.longueur
      else v.position + min (min v.vitesse r.limite_vitesse) v.vitesse_max * (dt / 60) := by
  simp [avancer, h]

/-- Witness for C1 at a concrete input: `vW1` advanced 60 minutes. -/
theorem avancer_updates_witness :
    (avancer vW1 60).distance_parcourue =
      vW1.distance_parcourue +
        min (min vW1.vitesse rW1.limite_vitesse) vW1.vitesse_max * (60 / 60) ∧
    (avancer vW1 60).temps_trajet = vW1.temps_trajet + 60 ∧
    (avancer vW1 60).position =
      if vW1.position +
          min (min vW1.vitesse rW1.limite_vitesse) vW1.vitesse_max * (60 / 60) ≥
          rW1.longueur then rW1.longueur
      else vW1.position +
        min (min vW1.vitesse rW1.limite_vitesse) vW1.vitesse_max * (60 / 60) :=
  avancer_updates vW1 rW1 60 rfl

/-- A concrete leader at the strictly negative position -0.5 with speed 100,
used to refute C2 as stated. -/
def wC2 : Vehicule := ⟨"VEH_0002", -1/2, 100, 130, 0, 0, some rW1⟩

/-- Counterexample to C2 as stated: with follower `vW1` (position 0, speed 50,
route limit 90, cap 130) and present leader `wC2` at position -0.5 with speed
100 and safety distance 0.05, the gap is -0.5 < 0.05, so the claimed
three-zone rule would brake to `max(0, 100 - 10) = 90`; the code instead takes
the sentinel branch (`p_devant < 0`) and sets speed to
`min(50 + 10, 90, 130) = 60`. -/
theorem ajuster_vitesse_zones_cex :
    wC2.position - vW1.position < 1/20 ∧
    (ajuster_vitesse vW1 (some wC2) (1/20)).vitesse = 60 ∧
    ¬ (ajuster_vitesse vW1 (some wC2) (1/20)).vitesse = max 0 (wC2.vitesse - 10) := by
  refine ⟨by norm_num [wC2, vW1], ?_, ?_⟩ <;>
    simp [ajuster_vitesse, vW1, wC2, rW1] <;> norm_num

/-- C2 as amended: for a vehicle with a non-null route and a present leader at
a **nonnegative** position, `ajuster_vitesse` computes
`distance = leader.position - self.position` and applies the three-zone rule:
below `distance_securite`, speed becomes `max(0, leader.vitesse - 10)`; below
`distance_securite * 2`, speed becomes `leader.vitesse`; otherwise speed
becomes `min(vitesse + 5, limite_vitesse, vitesse_max)`.  Only `vitesse` is
mutated. -/
theorem ajuster_vitesse_zones (v w : Vehicule) (r : Route) (d : ℚ)
    (h : v.route_actuelle = some r) (hw : 0 ≤ w.position) :
    ajuster_vitesse v (some w) d =
      { v with vitesse :=
          if w.position - v.position < d then max 0 (w.vitesse - 10)
          else if w.position - v.position < d * 2 then w.vitesse
          else min (min (v.vitesse + 5) r.limite_vitesse) v.vitesse_max } := by
  simp only [ajuster_vitesse, h, not_lt.mpr hw, if_false]
  split_ifs <;> rfl

/-- Witness for the amended C2: leader at position 0.08 with speed 70, gap
0.08 ∈ [0.05, 0.10), so the follower matches the leader's speed. -/
theorem ajuster_vitesse_zones_witness :
    ajuster_vitesse vW1 (some (⟨"VEH_0003", 2/25, 70, 130, 0, 0, some rW1⟩ : Vehicule))
        (1/20) =
      { vW1 with vitesse :=
          if (2/25 : ℚ) - vW1.position < 1/20 then max 0 ((70 : ℚ) - 10)
          else if (2/25 : ℚ) - vW1.position < (1/20) * 2 then (70 : ℚ)
          else min (min (vW1.vitesse + 5) rW1.limite_vitesse) vW1.vitesse_max } :=
  ajuster_vitesse_zones vW1 ⟨"VEH_0003", 2/25, 70, 130, 0, 0, some rW1⟩ rW1 (1/20)
    rfl (by norm_num)

/-- A vehicle already at the end of `rW1` (position 100 = length) but with the
negative speed -10, used to refute the second half of C3 as stated. -/
def vC3 : Vehicule := ⟨"VEH_0004", 100, -10, 130, 0, 0, some rW1⟩

/-- Counterexample to C3 as stated: `vC3` sits exactly at the route end
(position 100 = length) and has speed -10, so the effective speed is -10;
`avancer 60` (deltaTime 60 > 0) adds the negative displacement -10 and the
clamp does not fire, leaving position 90 ≠ 100: the vehicle does not stay at
the route end. -/
theorem avancer_clamp_cex :
    vC3.position = rW1.longueur ∧ (0 : ℚ) < 60 ∧
    (avancer vC3 60).position = 90 ∧ ¬ (avancer vC3 60).position = rW1.longueur := by
  refine ⟨rfl, by norm_num, ?_, ?_⟩ <;> simp [avancer, vC3, rW1] <;> norm_num

/-- C3 as amended: with a non-null route, after `avancer` the position never
exceeds `route.longueur`; and provided the effective speed
`min(vitesse, limite_vitesse, vitesse_max)` is nonnegative, once
`position = route.longueur` a further `avancer` with `deltaTime > 0` leaves
the position at `route.longueur` (the displacement is added, then the clamp
restores the end of the route). -/
theorem avancer_clamp (v : Vehicule) (r : Route) (dt : ℚ)
    (h : v.route_actuelle = some r) :
    (avancer v dt).position ≤ r.longueur ∧
    (0 ≤ min (min v.vitesse r.limite_vitesse) v.vitesse_max → 0 < dt →
      v.position = r.longueur → (avancer v dt).position = r.longueur) := by
  have hpos : (avancer v dt).position =
      if v.position + min (min v.vitesse r.limite_vitesse) v.vitesse_max * (dt / 60) ≥
          r.longueur then r.longueur
      else v.position + min (min v.vitesse r.limite_vitesse) v.vitesse_max * (dt / 60) := by
    simp [avancer, h]
  rw [hpos]
  constructor
  · split_ifs with hge
    · exact le_refl _
    · exact le_of_lt (not_le.mp hge)
  · intro heff hdt hend
    have hnn : 0 ≤ min (min v.vitesse r.limite_vitesse) v.vitesse_max * (dt / 60) :=
      mul_nonneg heff (by positivity)
    have hc : v.position + min (min v.vitesse r.limite_vitesse) v.vitesse_max * (dt / 60) ≥
        r.longueur := by rw [hend]; linarith
    rw [if_pos hc]

/-- A vehicle at the end of `rW1` with nonnegative speed 50, used as the
witness input for the amended C3. -/
def vC3w : Vehicule := ⟨"VEH_0005", 100, 50, 130, 0, 0, some rW1⟩

/-- Witness for the amended C3 at a concrete input: `vC3w` sits at the route
end with nonnegative effective speed; advancing 60 minutes keeps it there. -/
theorem avancer_clamp_witness :
    (avancer vC3w 60).position ≤ rW1.longueur ∧
    (avancer vC3w 60).position = rW1.longueur :=
  ⟨(avancer_clamp vC3w rW1 60 rfl).1,
   (avancer_clamp vC3w rW1 60 rfl).2 (by norm_num [vC3w, rW1]) (by norm_num) rfl⟩

/-- C4: `changer_de_route none` returns `false` and changes nothing (no hook
call); `changer_de_route (some r)` returns `true`, resets `position` to 0,
installs `r` as the current route, leaves `vitesse`, `vitesse_max`,
`distance_parcourue`, `temps_trajet` and `identifiant` unchanged, and calls
the prior route's removal hook (only when a prior route existed) followed by
the new route's addition hook, in that order. -/
theorem changer_de_route_spec (v : Vehicule) (r : Route) :
    changer_de_route v none = (false, v, []) ∧
    (changer_de_route v (some r)).1 = true ∧
    (changer_de_route v (some r)).2.1.position = 0 ∧
    (changer_de_route v (some r)).2.1.route_actuelle = some r ∧
    (changer_de_route v (some r)).2.1.vitesse = v.vitesse ∧
    (changer_de_route v (some r)).2.1.vitesse_max = v.vitesse_max ∧
    (changer_de_route v (some r)).2.1.distance_parcourue = v.distance_parcourue ∧
    (changer_de_route v (some r)).2.1.temps_trajet = v.temps_trajet ∧
    (changer_de_route v (some r)).2.1.identifiant = v.identifiant ∧
    (changer_de_route v (some r)).2.2 =
      (match v.route_actuelle with
       | none => [HookCall.ajouter r.rid]
       | some r0 => [HookCall.retirer r0.rid, HookCall.ajouter r.rid]) := by
  refine ⟨rfl, rfl, rfl, rfl, rfl, rfl, rfl, rfl, rfl, ?_⟩
  cases h : v.route_actuelle <;> simp [changer_de_route, h]

/-- A leader in the match-leader zone (position 0.07) with the negative speed
-5, used to refute C5 as stated. -/
def wC5 : Vehicule := ⟨"VEH_0006", 7/100, -5, 130, 0, 0, some rW1⟩

/-- Counterexample to C5 as stated: with follower `vW1` and leader `wC5` at
gap 0.07 ∈ [0.05, 0.10), `ajuster_vitesse` takes the match-leader branch and
assigns the leader's speed -5, which is strictly below 0. -/
theorem ajuster_vitesse_nonneg_cex :
    (ajuster_vitesse vW1 (some wC5) (1/20)).vitesse < 0 := by
  norm_num [ajuster_vitesse, vW1, wC5, rW1]

/-- C5 as amended: `ajuster_vitesse` never assigns a speed below 0 provided
the prior own speed, the own cap `vitesse_max`, the route's speed limit (when
a route is present) and the leader's speed (when a leader is present) are all
nonnegative. -/
theorem ajuster_vitesse_nonneg (v : Vehicule) (w : Option Vehicule) (d : ℚ)
    (h0 : 0 ≤ v.vitesse) (h1 : 0 ≤ v.vitesse_max)
    (h2 : ∀ r, v.route_actuelle = some r → 0 ≤ r.limite_vitesse)
    (h3 : ∀ u, w = some u → 0 ≤ u.vitesse) :
    0 ≤ (ajuster_vitesse v w d).vitesse := by
  cases hr : v.route_actuelle with
  | none => simpa [ajuster_vitesse, hr] using h0
  | some r =>
    have hlim := h2 r hr
    cases w with
    | none =>
      simp only [ajuster_vitesse, hr]
      exact le_min (le_min (by linarith) hlim) h1
    | some u =>
      have hu := h3 u rfl
      simp only [ajuster_vitesse, hr]
      split_ifs with hneg hd1 hd2
      · exact le_min (le_min (by linarith) hlim) h1
      · exact le_max_left _ _
      · exact hu
      · exact le_min (le_min (by linarith) hlim) h1

/-- Witness for the amended C5 at a concrete input: `vW1` with no leader and
nonnegative data everywhere keeps a nonnegative speed. -/
theorem ajuster_vitesse_nonneg_witness :
    0 ≤ (ajuster_vitesse vW1 none (1/20)).vitesse :=
  ajuster_vitesse_nonneg vW1 none (1/20) (by norm_num [vW1]) (by norm_num [vW1])
    (by intro r hr; simp [vW1] at hr; subst hr; norm_num [rW1])
    (by intro u hu; cases hu)

/-- A vehicle with the negative speed -20 on `rW1`, used to refute C6 as
stated (its odometer decreases on a forward step). -/
def vC6 : Vehicule := ⟨"VEH_0007", 0, -20, 130, 0, 0, some rW1⟩

/-- Counterexample to C6 as stated: quantified over *every* deltaTime, the
claim fails — `avancer (-60)` on `vW1` decreases `temps_trajet` (from 0 to
-60), and even with deltaTime 60 > 0, `avancer` on `vC6` (speed -20, so
effective speed -20) decreases `distance_parcourue` (from 0 to -20). -/
theorem avancer_monotone_cex :
    (avancer vW1 (-60)).temps_trajet < vW1.temps_trajet ∧
    (avancer vC6 60).distance_parcourue < vC6.distance_parcourue := by
  constructor <;> norm_num [avancer, vW1, vC6, rW1]

/-- C6 as amended: `distance_parcourue` and `temps_trajet` do not decrease
across `avancer dt` provided `dt ≥ 0` and the effective speed
`min(vitesse, limite_vitesse, vitesse_max)` is nonnegative when a route is
present (with no route, `avancer` changes nothing). -/
theorem avancer_monotone (v : Vehicule) (dt : ℚ) (hdt : 0 ≤ dt)
    (heff : ∀ r, v.route_actuelle = some r →
      0 ≤ min (min v.vitesse r.limite_vitesse) v.vitesse_max) :
    v.distance_parcourue ≤ (avancer v dt).distance_parcourue ∧
    v.temps_trajet ≤ (avancer v dt).temps_trajet := by
  cases hr : v.route_actuelle with
  | none => simp [avancer, hr]
  | some r =>
    have h := heff r hr
    have hmul : 0 ≤ min (min v.vitesse r.limite_vitesse) v.vitesse_max * (dt / 60) :=
      mul_nonneg h (by positivity)
    constructor <;> simp [avancer, hr] <;> linarith

/-- Witness for the amended C6 at a concrete input: `vW1` advanced 60 minutes
(speed 50, limit 90, cap 130, so effective speed 50 ≥ 0). -/
theorem avancer_monotone_witness :
    vW1.distance_parcourue ≤ (avancer vW1 60).distance_parcourue ∧
    vW1.temps_trajet ≤ (avancer vW1 60).temps_trajet :=
  avancer_monotone vW1 60 (by norm_num)
    (by intro r hr; simp [vW1] at hr; subst hr; norm_num [vW1, rW1])

/-- A route-less vehicle with nonzero kinematic fields, used as the witness
input for C7. -/
def vSansRoute : Vehicule := ⟨"VEH_0008", 3, 40, 130, 7, 9, none⟩

/-- C7: with `route_actuelle = none`, both `avancer` (any deltaTime) and
`ajuster_vitesse` (any leader argument and any safety distance) return the
vehicle with every field unchanged. -/
theorem sans_route_noop (v : Vehicule) (dt d : ℚ) (w : Option Vehicule)
    (h : v.route_actuelle = none) :
    avancer v dt = v ∧ ajuster_vitesse v w d = v := by
  constructor <;> simp [avancer, ajuster_vitesse, h]

/-- Witness for C7 at a concrete input: the route-less `vSansRoute` is left
intact by both operations. -/
theorem sans_route_noop_witness :
    avancer vSansRoute 60 = vSansRoute ∧
    ajuster_vitesse vSansRoute (some vW1) (1/20) = vSansRoute :=
  sans_route_noop vSansRoute 60 (1/20) (some vW1) rfl

/-- C8: `est_arrive` returns `true` iff the current route is non-null and the
position has reached the route's length; in particular it is `false` whenever
`route_actuelle = none` (and, being a pure function of the state, it mutates
nothing). -/
theorem est_arrive_spec (v : Vehicule) :
    est_arrive v = true ↔
      ∃ r, v.route_actuelle = some r ∧ r.longueur ≤ v.position := by
  cases hr : v.route_actuelle with
  | none => simp [est_arrive, hr]
  | some r => simp [est_arrive, hr, ge_iff_le]

/-- A leader at the strictly negative position -1 with speed 80, used as the
witness input for C9. -/
def wC9 : Vehicule := ⟨"VEH_0009", -1, 80, 130, 0, 0, some rW1⟩

/-- C9: with a non-null route, a present leader at a strictly negative
position is treated exactly like an absent leader (the code's sentinel for
"no leader" is the position -1.0, tested as `p_devant < 0`): the speed
becomes `min(vitesse + 10, limite_vitesse, vitesse_max)` and the gap-based
three-zone rule is not applied. -/
theorem ajuster_vitesse_sentinelle (v w : Vehicule) (r : Route) (d : ℚ)
    (h : v.route_actuelle = some r) (hw : w.position < 0) :
    ajuster_vitesse v (some w) d = ajuster_vitesse v none d ∧
    (ajuster_vitesse v (some w) d).vitesse =
      min (min (v.vitesse + 10) r.limite_vitesse) v.vitesse_max := by
  constructor <;> simp [ajuster_vitesse, h, hw]

/-- Witness for C9 at a concrete input: `vW1` with the leader `wC9` at
position -1 behaves exactly as with no leader. -/
theorem ajuster_vitesse_sentinelle_witness :
    ajuster_vitesse vW1 (some wC9) (1/20) = ajuster_vitesse vW1 none (1/20) ∧
    (ajuster_vitesse vW1 (some wC9) (1/20)).vitesse =
      min (min (vW1.vitesse + 10) rW1.limite_vitesse) vW1.vitesse_max :=
  ajuster_vitesse_sentinelle vW1 wC9 rW1 (1/20) rfl (by norm_num [wC9])

/-- A fast leader at position 0.07 with speed 200, exhibiting C10. -/
def wC10 : Vehicule := ⟨"VEH_0010", 7/100, 200, 130, 0, 0, some rW1⟩

/-- C10: `ajuster_vitesse` does not enforce the caps on the stored speed: at
the concrete state with follower `vW1` (cap 130, route limit 90) and leader
`wC10` at gap 0.07 ∈ [0.05, 0.10) with speed 200, the match-leader branch
stores 200, strictly above both `vitesse_max` and the route's
`limite_vitesse`. -/
theorem ajuster_vitesse_sans_plafond :
    vW1.route_actuelle = some rW1 ∧
    (1/20 : ℚ) ≤ wC10.position - vW1.position ∧
    wC10.position - vW1.position < (1/20) * 2 ∧
    (ajuster_vitesse vW1 (some wC10) (1/20)).vitesse = wC10.vitesse ∧
    vW1.vitesse_max < (ajuster_vitesse vW1 (some wC10) (1/20)).vitesse ∧
    rW1.limite_vitesse < (ajuster_vitesse vW1 (some wC10) (1/20)).vitesse := by
  refine ⟨rfl, ?_, ?_, ?_, ?_, ?_⟩ <;>
    simp [ajuster_vitesse, vW1, wC10, rW1] <;> norm_num
